import Mathlib

/-!
Shallow embedding of the Korean-statistics-analyzer pipeline
(`src/utils.js`, here `src/jest.config.cjs` after the document separator,
and `src/main.js`, here `src/unnamed/part_000`).

JavaScript dynamic values are modelled by `JSVal`; timestamps produced by
`new Date().toISOString()` are threaded as an explicit `now : String`
parameter; exceptions are modelled with `Except String`.
-/

set_option autoImplicit false

namespace KStat

/-- A JavaScript value as far as this code base observes it. -/
inductive JSVal where
  | undef
  | null
  | str (s : String)
  | num (q : Rat)
  | bool (b : Bool)
deriving DecidableEq, Repr

/-- JavaScript truthiness on `JSVal`. -/
def truthy : JSVal → Bool
  | .undef => false
  | .null => false
  | .str s => !(s == "")
  | .num q => !(q == 0)
  | .bool b => b

/-- JavaScript `a || b`. -/
def jsOr (a b : JSVal) : JSVal :=
  if truthy a then a else b

/-- Boolean test that `p` is a prefix of `l` (over characters). -/
def listPre (p l : List Char) : Bool :=
  match p, l with
  | [], _ => true
  | _ :: _, [] => false
  | a :: as, b :: bs => a == b && listPre as bs

/-- Boolean test that `p` occurs as a contiguous run inside `l`. -/
def listInf (p : List Char) : List Char → Bool
  | [] => listPre p []
  | c :: rest => listPre p (c :: rest) || listInf p rest

/-- JavaScript `s.includes(pat)`: substring test. -/
def strContains (s pat : String) : Bool :=
  listInf pat.data s.data

/-- JavaScript `s.toLowerCase()` on the alphabets this code uses: ASCII
letters are lowered, Korean syllables are fixed points (modelled as a
character-wise map, which the kernel can evaluate). -/
def jsToLower (s : String) : String :=
  ⟨s.data.map Char.toLower⟩

/-- The topic classifier `determineDataType` of `src/utils.js`, after the
`statName.toLowerCase()` step: an ordered chain of substring tests, first
match wins, `"general"` otherwise. -/
def classifyLower (name : String) : String :=
  if strContains name "인구" || strContains name "population" then "population"
  else if strContains name "경제" || strContains name "gdp" || strContains name "경제성장" then "economic"
  else if strContains name "노동" || strContains name "고용" || strContains name "취업" then "labor"
  else if strContains name "산업" || strContains name "제조업" then "industry"
  else if strContains name "교육" || strContains name "학교" then "education"
  else if strContains name "의료" || strContains name "보건" || strContains name "건강" then "health"
  else if strContains name "환경" || strContains name "오염" then "environment"
  else if strContains name "주택" || strContains name "부동산" then "housing"
  else if strContains name "소득" || strContains name "소비" || strContains name "가계" then "income"
  else if strContains name "물가" || strContains name "가격" then "prices"
  else "general"

/-- `determineDataType(statName)` of `src/utils.js`.  The source first runs
`statName.toLowerCase()`, which throws a `TypeError` when `statName` is not
a string (e.g. a number that survived `item.TBL_NM || ...`). -/
def determineDataType (statName : JSVal) : Except String String :=
  match statName with
  | .str s => .ok (classifyLower (jsToLower s))
  | _ => .error "statName.toLowerCase is not a function"

/-- Modelled from the spec (section 4.6): an ordered table of keyword sets,
one per category, in the listed order population, economic, labor, industry,
education, health, environment, housing, income, prices. -/
def keywordTable : List (List String × String) :=
  [ (["인구", "population"], "population"),
    (["경제", "gdp", "경제성장"], "economic"),
    (["노동", "고용", "취업"], "labor"),
    (["산업", "제조업"], "industry"),
    (["교육", "학교"], "education"),
    (["의료", "보건", "건강"], "health"),
    (["환경", "오염"], "environment"),
    (["주택", "부동산"], "housing"),
    (["소득", "소비", "가계"], "income"),
    (["물가", "가격"], "prices") ]

/-- Generic first-match classifier over an ordered keyword table. -/
def firstMatch (name : String) : List (List String × String) → String
  | [] => "general"
  | (ks, cat) :: rest =>
    if ks.any (fun k => strContains name k) then cat else firstMatch name rest

/-- Modelled from the spec (section 4.6): case-insensitive first-match
classification over `keywordTable`, unmatched text mapping to "general". -/
def classifySpec (s : String) : String :=
  firstMatch (jsToLower s) keywordTable

/-- Value of a digit list (most significant first). -/
def digitsVal (ds : List Char) : Nat :=
  ds.foldl (fun acc c => acc * 10 + (c.toNat - '0'.toNat)) 0

/-- JavaScript `parseInt` on a string (decimal case): skip leading
whitespace, optional sign, then the longest run of digits; `none` (NaN)
when no digit is found. -/
def jsParseIntStr (s : String) : Option Int :=
  let cs := s.data.dropWhile Char.isWhitespace
  let signAndDigits : Int × List Char :=
    match cs with
    | '-' :: rest => (-1, rest)
    | '+' :: rest => (1, rest)
    | rest => (1, rest)
  let ds := signAndDigits.2.takeWhile Char.isDigit
  if ds.isEmpty then none
  else some (signAndDigits.1 * (digitsVal ds : Int))

/-- Truncation of a rational toward zero, as JavaScript `parseInt`
performs on the decimal rendering of a number. -/
def ratTrunc (q : Rat) : Int :=
  if q < 0 then -((-q).floor) else q.floor

/-- JavaScript `parseInt(v)` for the values this code passes it:
numbers truncate toward zero, strings parse a leading decimal integer,
everything else is NaN (`none`). -/
def jsParseInt : JSVal → Option Int
  | .num q => some (ratTrunc q)
  | .str s => jsParseIntStr s
  | _ => none

/-- `parseInt(v) || d`: NaN and `0` are both falsy and fall back to `d`. -/
def parseIntOrElse (v : JSVal) (d : Int) : Int :=
  match jsParseInt v with
  | some n => if n = 0 then d else n
  | none => d

/-- The `maxItems` computation of `validateInput`:
`Math.min(Math.max(parseInt(input.maxItems) || 10, 1), 100)`. -/
def computeMaxItems (v : JSVal) : Int :=
  min (max (parseIntOrElse v 10) 1) 100

/-- The `delayBetweenRequests` computation of `validateInput`:
`Math.max(parseInt(input.delayBetweenRequests) || 1000, 500)`. -/
def computeDelay (v : JSVal) : Int :=
  max (parseIntOrElse v 1000) 500

/-- `v?.trim()`: optional chaining yields `undefined` on `null`/`undefined`,
trims a string, and throws a `TypeError` on any other value. -/
def jsTrim (v : JSVal) (label : String) : Except String JSVal :=
  match v with
  | .undef => .ok .undef
  | .null => .ok .undef
  | .str s => .ok (.str s.trim)
  | _ => .error (label ++ ".trim is not a function")

/-- `x || d` after a trim, landing in a plain string. -/
def strOrDefault (v : JSVal) (d : String) : String :=
  match v with
  | .str s => if s = "" then d else s
  | _ => d

/-- The raw input object consumed by `validateInput` (absent keys are
`undef`). -/
structure InputObj where
  searchKeyword : JSVal
  vwCd : JSVal
  parentId : JSVal
  maxItems : JSVal
  includeMetadata : JSVal
  outputFormat : JSVal
  delayBetweenRequests : JSVal
deriving DecidableEq, Repr

/-- The validated configuration produced by `validateInput`. -/
structure Config where
  searchKeyword : String
  vwCd : String
  parentId : String
  maxItems : Int
  includeMetadata : Bool
  outputFormat : String
  delayBetweenRequests : Int
deriving DecidableEq, Repr

/-- The `outputFormat` computation of `validateInput`:
`['structured','raw','both'].includes(v) ? v : 'structured'`
(`Array.includes` uses strict equality, so only strings can match). -/
def computeOutputFormat (v : JSVal) : String :=
  match v with
  | .str s => if s = "structured" ∨ s = "raw" ∨ s = "both" then s else "structured"
  | _ => "structured"

/-- `validateInput` of `src/utils.js`.  The object literal evaluates its
fields in source order, so the three `?.trim()` calls run first and are the
only throwing positions. -/
def validateInput (input : InputObj) : Except String Config := do
  let sk ← jsTrim input.searchKeyword "input.searchKeyword"
  let vw ← jsTrim input.vwCd "input.vwCd"
  let pid ← jsTrim input.parentId "input.parentId"
  .ok
    { searchKeyword := strOrDefault sk ""
      vwCd := strOrDefault vw "MT_ZTITLE"
      parentId := strOrDefault pid "A"
      maxItems := computeMaxItems input.maxItems
      includeMetadata := !(input.includeMetadata == JSVal.bool false)
      outputFormat := computeOutputFormat input.outputFormat
      delayBetweenRequests := computeDelay input.delayBetweenRequests }

/-- The raw-row fields that `normalizeStatisticalData` probes (absent
fields are `undef`). -/
structure RawItem where
  TBL_NM : JSVal
  DT : JSVal
  UNIT_NM : JSVal
  PRD_DE : JSVal
  C1_NM : JSVal
  C2_NM : JSVal
  C3_NM : JSVal
  ITM_NM : JSVal
  LST_CHN_DE : JSVal
deriving DecidableEq, Repr

/-- One element of the raw batch: a proper object, or `null`/`undefined`
(whose property access throws). -/
inductive RawRow where
  | jsnull
  | obj (o : RawItem)
deriving DecidableEq, Repr

/-- The argument of `normalizeStatisticalData`: an array, or a single
non-array value that the function wraps (`rawData = [rawData]`). -/
inductive RawBatch where
  | arr (rows : List RawRow)
  | single (row : RawRow)
deriving DecidableEq, Repr

/-- The `!Array.isArray(rawData)` wrapping step. -/
def coerceBatch : RawBatch → List RawRow
  | .arr rows => rows
  | .single row => [row]

/-- The synthesized metadata returned by `getMetaInfo` of `src/utils.js`
(KOSIS has no metadata endpoint; the function never fails). -/
structure MetaInfo where
  tableId : JSVal
  note : String
  lastUpdated : String
deriving DecidableEq, Repr

/-- `getMetaInfo(apiClient, statsDataId)`. -/
def getMetaInfo (statsDataId : JSVal) (now : String) : MetaInfo :=
  { tableId := statsDataId
    note := "Metadata retrieved from KOSIS API"
    lastUpdated := now }

/-- The `metadata` blob attached to a normalized record: the regular
per-row shape, the batch-failure sentinel shape, or the fixed demo shape. -/
inductive Metadata where
  | fieldInfo (tableTitle : JSVal) (c1 c2 c3 item : JSVal) (originalData : RawRow)
  | errorInfo (error : String) (rawData : List RawRow)
  | demoMeta (tableTitle : String) (categories : List (String × String)) (note : String)
deriving DecidableEq, Repr

/-- The canonical normalized record of section 3 of the spec. -/
structure NormalizedRecord where
  statName : JSVal
  surveyDate : JSVal
  region : JSVal
  category1 : JSVal
  category2 : JSVal
  value : Rat
  unit : JSVal
  sourceTableId : JSVal
  dataType : String
  lastUpdated : JSVal
  metadata : Metadata
  extractedAt : String
deriving DecidableEq, Repr

/-- JavaScript `parseFloat` on a string: optional sign, digits, optional
fractional digits; `none` (NaN) when no digit is found. -/
def jsParseFloatStr (s : String) : Option Rat :=
  let cs := s.data.dropWhile Char.isWhitespace
  let signAndRest : Rat × List Char :=
    match cs with
    | '-' :: rest => (-1, rest)
    | '+' :: rest => (1, rest)
    | rest => (1, rest)
  let intDs := signAndRest.2.takeWhile Char.isDigit
  let afterInt := signAndRest.2.drop intDs.length
  let fracDs : List Char :=
    match afterInt with
    | '.' :: rest => rest.takeWhile Char.isDigit
    | _ => []
  if intDs.isEmpty && fracDs.isEmpty then none
  else
    some (signAndRest.1 *
      ((digitsVal intDs : Rat) + (digitsVal fracDs : Rat) / ((10 : Rat) ^ fracDs.length)))

/-- `parseFloat(item.DT) || 0`: non-parseable values (NaN) and `0` both
land at `0`. -/
def parseFloatOr0 : JSVal → Rat
  | .num q => q
  | .str s => (jsParseFloatStr s).getD 0
  | _ => 0

/-- The region step of the Normalizer:
`item.C1_NM && item.C1_NM.includes('지역') ? item.C1_NM : 'Korea'`.
A truthy non-string `C1_NM` throws (`includes` is not a function). -/
def regionOf (c1 : JSVal) : Except String JSVal :=
  if truthy c1 then
    match c1 with
    | .str s => .ok (if strContains s "지역" then .str s else .str "Korea")
    | _ => .error "item.C1_NM.includes is not a function"
  else
    .ok (.str "Korea")

/-- Normalization of one raw row, following the source's evaluation order:
property access on a `null` row throws first, then the region step, then
the topic classification inside the pushed record literal. -/
def normalizeRow (sourceTableId : JSVal) (now : String) : RawRow → Except String NormalizedRecord
  | .jsnull => .error "Cannot read properties of null (reading TBL_NM)"
  | .obj item => do
    let statName := jsOr item.TBL_NM (.str "Unknown Statistic")
    let value := parseFloatOr0 item.DT
    let unit := jsOr item.UNIT_NM (.str "")
    let period := jsOr item.PRD_DE (.str "Unknown Period")
    let category1 := jsOr item.C1_NM (jsOr item.ITM_NM (.str "General"))
    let category2 := jsOr item.C2_NM (.str "")
    let region ← regionOf item.C1_NM
    let dataType ← determineDataType statName
    .ok
      { statName := statName
        surveyDate := period
        region := region
        category1 := category1
        category2 := category2
        value := value
        unit := unit
        sourceTableId := sourceTableId
        dataType := dataType
        lastUpdated := jsOr item.LST_CHN_DE (.str now)
        metadata := .fieldInfo statName item.C1_NM item.C2_NM item.C3_NM item.ITM_NM (.obj item)
        extractedAt := now }

/-- The `forEach` loop of `normalizeStatisticalData`: records pushed before
the first throwing row are kept, and the exception message (if any) is
returned alongside them. -/
def normalizeRows (sourceTableId : JSVal) (now : String) :
    List RawRow → List NormalizedRecord × Option String
  | [] => ([], none)
  | r :: rs =>
    match normalizeRow sourceTableId now r with
    | .ok rec =>
      let rest := normalizeRows sourceTableId now rs
      (rec :: rest.1, rest.2)
    | .error msg => ([], some msg)

/-- The sentinel record pushed by the `catch` of `normalizeStatisticalData`. -/
def errorSentinel (msg : String) (rows : List RawRow) (sourceTableId : JSVal)
    (now : String) : NormalizedRecord :=
  { statName := .str "Error Processing Data"
    surveyDate := .str "Unknown Date"
    region := .str "Korea"
    category1 := .str "Error"
    category2 := .str ""
    value := 0
    unit := .str ""
    sourceTableId := sourceTableId
    dataType := "error"
    lastUpdated := .str now
    metadata := .errorInfo msg rows
    extractedAt := now }

/-- `normalizeStatisticalData(rawData, metadata, sourceTableId)` of
`src/utils.js`.  The `metadata` argument is accepted but never used by the
source.  On an exception the `catch` block pushes the sentinel onto the
same `normalizedData` array, after any records already pushed. -/
def normalizeStatisticalData (rawData : RawBatch) (metadata : Option MetaInfo)
    (sourceTableId : JSVal) (now : String) : List NormalizedRecord :=
  let _ := metadata
  let rows := coerceBatch rawData
  match normalizeRows sourceTableId now rows with
  | (recs, none) => recs
  | (recs, some msg) => recs ++ [errorSentinel msg rows sourceTableId now]

/-- A table descriptor as returned by the KOSIS listing endpoint. -/
structure TableDesc where
  TBL_ID : JSVal
  LIST_ID : JSVal
  TBL_NM : JSVal
  LIST_NM : JSVal
  ORG_ID : JSVal
deriving DecidableEq, Repr

/-- The axios-level error shapes distinguished by `handleApiError`. -/
inductive AxiosErrInfo where
  | response (status : Int) (dataMessage dataError : Option String)
  | request
  | setup (msg : String)
deriving DecidableEq, Repr

/-- `data?.message || data?.error || 'Unknown API error'` (empty strings
are falsy). -/
def apiErrorMsg (dataMessage dataError : Option String) : String :=
  match dataMessage with
  | some m =>
    if m = "" then
      match dataError with
      | some e => if e = "" then "Unknown API error" else e
      | none => "Unknown API error"
    else m
  | none =>
    match dataError with
    | some e => if e = "" then "Unknown API error" else e
    | none => "Unknown API error"

/-- The message built by `handleApiError(error, context)` of
`src/utils.js` (the function always throws; we model the thrown message). -/
def handleApiError (e : AxiosErrInfo) (context : String) : String :=
  match e with
  | .response status dm de =>
    "KOSIS API Error (" ++ context ++ "): Status " ++ toString status ++ " - " ++ apiErrorMsg dm de
  | .request =>
    "KOSIS API Error (" ++ context ++ "): No response received from server."
  | .setup msg =>
    "KOSIS API Error (" ++ context ++ "): " ++ msg

/-- Possible outcomes of the axios GET inside `getStatsList`. -/
inductive ListOutcome where
  | arrayData (ts : List TableDesc)
  | arrayLikeData (ts : List TableDesc)
  | invalidData
  | httpError (status : Int) (dataMessage dataError : Option String)
  | noResponse
  | setupError (msg : String)
deriving Repr

/-- `getStatsList(apiClient, params)` of `src/utils.js`: array and
array-like bodies are returned; an invalid body raises
`'Invalid response format from KOSIS API'`, which the `catch` routes
through `handleApiError` (no `response`/`request` field, so the setup
branch); axios failures are routed through `handleApiError` likewise. -/
def getStatsList : ListOutcome → Except String (List TableDesc)
  | .arrayData ts => .ok ts
  | .arrayLikeData ts => .ok ts
  | .invalidData => .error (handleApiError (.setup "Invalid response format from KOSIS API") "getStatsList")
  | .httpError status dm de => .error (handleApiError (.response status dm de) "getStatsList")
  | .noResponse => .error (handleApiError .request "getStatsList")
  | .setupError msg => .error (handleApiError (.setup msg) "getStatsList")

/-- The search-parameter object built by `buildSearchParams` in
`src/main.js`. -/
structure SearchParams where
  vwCd : String
  parentId : String
  searchKeyword : Option String
deriving DecidableEq, Repr

/-- `buildSearchParams(input)` of `src/main.js`: the keyword key is added
only when truthy. -/
def buildSearchParams (cfg : Config) : SearchParams :=
  { vwCd := if cfg.vwCd = "" then "MT_ZTITLE" else cfg.vwCd
    parentId := if cfg.parentId = "" then "A" else cfg.parentId
    searchKeyword := if cfg.searchKeyword = "" then none else some cfg.searchKeyword }

/-- The static registration guidance of the demo summary. -/
structure RegInfo where
  url : String
  note : String
  warning : String
deriving DecidableEq, Repr

/-- The constant `registrationInfo` object of `runDemoMode`. -/
def kosisRegInfo : RegInfo :=
  { url := "https://kosis.kr/openapi/index/index.jsp"
    note := "Register for KOSIS API access (Korean phone number or i-PIN required)"
    warning := "KOSIS API key registration requires Korean identity verification" }

/-- One record handed to `Actor.pushData`, by shape. -/
inductive OutRecord where
  | noData (message : String) (searchParams : SearchParams) (extractedAt : String)
  | rawRec (tableId : JSVal) (tableInfo : TableDesc) (metadata : Option MetaInfo)
      (rawData : List RawRow) (extractedAt : String)
  | dataPoint (r : NormalizedRecord)
  | tableError (tableId tableTitle : JSVal) (error : String) (extractedAt : String)
  | summary (tablesProcessed totalDataPoints : Nat) (searchCriteria : Config) (completedAt : String)
  | topError (error : String) (message : String) (input : Config) (extractedAt : String)
  | demoSummary (message : String) (demoDataPoints : Nat) (searchCriteria : Config)
      (registrationInfo : RegInfo) (completedAt : String)
deriving DecidableEq, Repr

/-- Observable effects of a run: pushed records, `sleep` calls, the chart
side channel, and the `getStatsList` call marker. -/
inductive Event where
  | push (r : OutRecord)
  | sleeps (ms : Int)
  | chart (dataPoints : Nat)
  | callList
deriving DecidableEq, Repr

/-- Lower-cased string content of a `JSVal`; the demo pool only ever holds
strings in the filtered positions, so the default branch is never hit
there. -/
def jsLowerString : JSVal → String
  | .str s => jsToLower s
  | _ => ""

/-- The fixed four-record sample pool of `runDemoMode`. -/
def demoPool (now : String) : List NormalizedRecord :=
  [ { statName := .str "인구총조사 총인구"
      surveyDate := .str "2020년"
      region := .str "전국"
      category1 := .str "총인구"
      category2 := .str "계"
      value := 51829023
      unit := .str "명"
      sourceTableId := .str "demo_001"
      dataType := "population"
      lastUpdated := .str "2021-08-31T00:00:00Z"
      metadata := .demoMeta "인구총조사 총인구" [("area", "전국"), ("gender", "계")]
        "This is demo data for Korean statistics"
      extractedAt := now },
    { statName := .str "경제활동인구조사 취업자수"
      surveyDate := .str "2023년 12월"
      region := .str "전국"
      category1 := .str "취업자"
      category2 := .str "전체"
      value := 28432000
      unit := .str "명"
      sourceTableId := .str "demo_002"
      dataType := "labor"
      lastUpdated := .str "2024-01-15T00:00:00Z"
      metadata := .demoMeta "경제활동인구조사 취업자수" [("area", "전국"), ("employment", "취업자")]
        "This is demo data for Korean statistics"
      extractedAt := now },
    { statName := .str "국내총생산(GDP)"
      surveyDate := .str "2023년"
      region := .str "전국"
      category1 := .str "실질GDP"
      category2 := .str "연간"
      value := 2080000
      unit := .str "십억원"
      sourceTableId := .str "demo_003"
      dataType := "economic"
      lastUpdated := .str "2024-03-26T00:00:00Z"
      metadata := .demoMeta "국내총생산(GDP)" [("type", "실질GDP"), ("period", "연간")]
        "This is demo data for Korean statistics"
      extractedAt := now },
    { statName := .str "소비자물가지수"
      surveyDate := .str "2024년 8월"
      region := .str "전국"
      category1 := .str "총지수"
      category2 := .str "전월대비"
      value := 1023 / 10
      unit := .str "지수"
      sourceTableId := .str "demo_004"
      dataType := "prices"
      lastUpdated := .str "2024-09-01T00:00:00Z"
      metadata := .demoMeta "소비자물가지수" [("type", "총지수"), ("comparison", "전월대비")]
        "This is demo data for Korean statistics"
      extractedAt := now } ]

/-- The keyword filter of `runDemoMode`: lower-cased keyword tested as a
substring of `statName`, `category1` and `dataType`. -/
def demoKeywordFilter (keywordLower : String) (r : NormalizedRecord) : Bool :=
  strContains (jsLowerString r.statName) keywordLower ||
  strContains (jsLowerString r.category1) keywordLower ||
  strContains (jsToLower r.dataType) keywordLower

/-- The record selection of `runDemoMode`: filter when the keyword is
truthy, then `slice(0, maxItems)`. -/
def demoSelection (cfg : Config) (now : String) : List NormalizedRecord :=
  let filtered :=
    if cfg.searchKeyword ≠ "" then
      (demoPool now).filter (demoKeywordFilter (jsToLower cfg.searchKeyword))
    else demoPool now
  filtered.take cfg.maxItems.toNat

/-- The fixed message of the demo summary record. -/
def demoSummaryMsg : String :=
  "Demo mode completed. To access real KOSIS data, please provide KOSIS_API_KEY."

/-- `runDemoMode(input)` of `src/main.js`, as its emitted records. -/
def runDemoMode (cfg : Config) (now : String) : List Event :=
  (demoSelection cfg now).map (fun r => Event.push (.dataPoint r)) ++
    [Event.push (.demoSummary demoSummaryMsg (demoSelection cfg now).length cfg kosisRegInfo now)]

/-- `table.TBL_ID || table.LIST_ID || 'table_<n>'`. -/
def resolveTableId (t : TableDesc) (n : Nat) : JSVal :=
  jsOr t.TBL_ID (jsOr t.LIST_ID (.str ("table_" ++ toString n)))

/-- `table.TBL_NM || table.LIST_NM || 'Unknown Table'`. -/
def resolveTableTitle (t : TableDesc) : JSVal :=
  jsOr t.TBL_NM (jsOr t.LIST_NM (.str "Unknown Table"))

/-- One iteration of the per-table loop of `mainLogic`: `idx` is the
0-based position (the source's `processedTables` counter is `idx + 1`),
`fetched` is the outcome of `getStatsData` for this table.  Returns the
events of the iteration and the number of structured data points pushed.
`getMetaInfo` never fails, so the inner metadata `catch` is dead; the
`sleep` sits at the end of the `try`, so it runs only on success, while
the `catch` pushes one error record and performs no sleep. -/
def processTable (cfg : Config) (now : String) (idx : Nat) (t : TableDesc)
    (fetched : Except String (List RawRow)) : List Event × Nat :=
  let n := idx + 1
  let tableId := resolveTableId t n
  let tableTitle := resolveTableTitle t
  let metadata := if cfg.includeMetadata then some (getMetaInfo tableId now) else none
  match fetched with
  | .error msg => ([Event.push (.tableError tableId tableTitle msg now)], 0)
  | .ok statsData =>
    let rawEvs :=
      if cfg.outputFormat = "raw" ∨ cfg.outputFormat = "both" then
        [Event.push (.rawRec tableId t metadata statsData now)]
      else []
    let normed :=
      if cfg.outputFormat = "structured" ∨ cfg.outputFormat = "both" then
        normalizeStatisticalData (.arr statsData) metadata tableId now
      else []
    (rawEvs ++ normed.map (fun r => Event.push (.dataPoint r)) ++
      [Event.sleeps cfg.delayBetweenRequests], normed.length)

/-- The live processing phase of `mainLogic`: truncate to `maxItems`,
run every table, render the chart when structured data accumulated, then
emit the summary record. -/
def liveEvents (cfg : Config) (now : String) (fetch : Nat → Except String (List RawRow))
    (statsList : List TableDesc) : List Event :=
  let tablesToProcess := statsList.take cfg.maxItems.toNat
  let results := tablesToProcess.enum.map (fun p => processTable cfg now p.1 p.2 (fetch p.1))
  let evs := (results.map Prod.fst).flatten
  let total := (results.map Prod.snd).sum
  let chartEvs := if 0 < total then [Event.chart total] else []
  evs ++ chartEvs ++ [Event.push (.summary tablesToProcess.length total cfg now)]

/-- The external world of one run: the credential (environment variable or
key-value store, already collapsed), the raw input, the listing outcome,
the per-iteration data-fetch outcomes, and the clock. -/
structure Env where
  apiKey : Option String
  input : InputObj
  listResult : Except String (List TableDesc)
  fetch : Nat → Except String (List RawRow)
  now : String

/-- Truthiness of the credential (`if (!kosisApiKey)`). -/
def apiKeyTruthy : Option String → Bool
  | some s => !(s == "")
  | none => false

/-- The message of the non-auth top-level error record. -/
def topErrorMsg : String :=
  "An error occurred while processing. Falling back to demo mode."

/-- The message of the empty-list record. -/
def noDataMsg : String :=
  "No statistical tables found for the given search criteria"

/-- `mainLogic()` of `src/main.js`, as the list of observable events.
`validateInput` runs outside the `try`, so its exception propagates
(`Except.error`).  No credential routes straight to demo mode.  In the
live path the listing call is marked with `callList`; a listing failure
hits the top-level `catch`: messages containing `'403'`, `'401'` or
`'API'` fall back to demo mode directly, anything else first pushes one
top-level error record.  An empty list emits the no-data record and
stops. -/
def mainLogic (env : Env) : Except String (List Event) :=
  match validateInput env.input with
  | .error e => .error e
  | .ok cfg =>
    if apiKeyTruthy env.apiKey = false then
      .ok (runDemoMode cfg env.now)
    else
      .ok (Event.callList ::
        (match env.listResult with
         | .error m =>
           if strContains m "403" || strContains m "401" || strContains m "API" then
             runDemoMode cfg env.now
           else
             Event.push (.topError m topErrorMsg cfg env.now) :: runDemoMode cfg env.now
         | .ok statsList =>
           if statsList.length = 0 then
             [Event.push (.noData noDataMsg (buildSearchParams cfg) env.now)]
           else
             liveEvents cfg env.now env.fetch statsList))

/-- Predicate: the event is a top-level error record. -/
def isTopError : Event → Bool
  | .push (.topError _ _ _ _) => true
  | _ => false

/-- Predicate: the event is a demo-summary record. -/
def isDemoSummary : Event → Bool
  | .push (.demoSummary _ _ _ _ _) => true
  | _ => false

/-- Predicate: the event is the Table Lister call marker. -/
def isCallList : Event → Bool
  | .callList => true
  | _ => false

/-- Predicate: the event is a `sleep` call. -/
def isSleep : Event → Bool
  | .sleeps _ => true
  | _ => false

/-- Number of `sleep` calls in an event trace. -/
def countSleeps (evs : List Event) : Nat :=
  evs.countP isSleep

/-- Whether the iteration's data fetch succeeded. -/
def fetchOk : Except String (List RawRow) → Bool
  | .ok _ => true
  | .error _ => false

/-- Events of a run that did not propagate an exception. -/
def eventsOf : Except String (List Event) → List Event
  | .ok evs => evs
  | .error _ => []

/-- A `JSVal` the optional-chained `trim` accepts. -/
def stringable (v : JSVal) : Prop :=
  v = .undef ∨ v = .null ∨ ∃ s, v = .str s

theorem listPre_append_left (p : List Char) :
    ∀ (l l' : List Char), listPre p l = true → listPre p (l ++ l') = true := by
  induction p with
  | nil => intro l l' _; cases l <;> simp [listPre]
  | cons a as ih =>
    intro l l' h
    cases l with
    | nil => simp [listPre] at h
    | cons b bs =>
      simp only [List.cons_append, listPre, Bool.and_eq_true] at h ⊢
      exact ⟨h.1, ih bs l' h.2⟩

theorem listInf_nil_pat (l : List Char) : listInf [] l = true := by
  cases l <;> simp [listInf, listPre]

theorem listInf_append_left (p : List Char) :
    ∀ (l l' : List Char), listInf p l = true → listInf p (l ++ l') = true := by
  intro l
  induction l with
  | nil =>
    intro l' h
    cases p with
    | nil => exact listInf_nil_pat l'
    | cons a as => simp [listInf, listPre] at h
  | cons c rest ih =>
    intro l' h
    simp only [listInf, Bool.or_eq_true] at h
    rcases h with h | h
    · simp only [List.cons_append, listInf, Bool.or_eq_true]
      exact Or.inl (listPre_append_left _ _ _ h)
    · simp only [List.cons_append, listInf, Bool.or_eq_true]
      exact Or.inr (ih l' h)

theorem string_data_append (s t : String) : (s ++ t).data = s.data ++ t.data := by
  cases s; cases t; rfl

theorem strContains_append_left (s t pat : String) (h : strContains s pat = true) :
    strContains (s ++ t) pat = true := by
  unfold strContains at h ⊢
  rw [string_data_append]
  exact listInf_append_left _ _ _ h

theorem runDemoMode_no_topError (cfg : Config) (now : String) :
    ∀ e ∈ runDemoMode cfg now, isTopError e = false := by
  intro e he
  simp only [runDemoMode, List.mem_append, List.mem_map, List.mem_singleton] at he
  rcases he with ⟨r, _, rfl⟩ | rfl <;> rfl

theorem runDemoMode_no_callList (cfg : Config) (now : String) :
    ∀ e ∈ runDemoMode cfg now, isCallList e = false := by
  intro e he
  simp only [runDemoMode, List.mem_append, List.mem_map, List.mem_singleton] at he
  rcases he with ⟨r, _, rfl⟩ | rfl <;> rfl

theorem runDemoMode_no_sleep (cfg : Config) (now : String) :
    countSleeps (runDemoMode cfg now) = 0 := by
  simp only [countSleeps, runDemoMode, List.countP_append, List.countP_map]
  rw [List.countP_eq_zero.mpr, List.countP_eq_zero.mpr]
  · intro a ha
    simp only [List.mem_singleton] at ha
    subst ha
    simp [isSleep]
  · intro a _
    simp [isSleep, Function.comp]

theorem runDemoMode_has_demoSummary (cfg : Config) (now : String) :
    (runDemoMode cfg now).any isDemoSummary = true := by
  simp [runDemoMode, List.any_append, isDemoSummary]

theorem runDemoMode_demoSummary_mem (cfg : Config) (now : String) :
    Event.push (.demoSummary demoSummaryMsg (demoSelection cfg now).length cfg kosisRegInfo now)
      ∈ runDemoMode cfg now := by
  simp [runDemoMode]

theorem classifyLower_eq_firstMatch (name : String) :
    classifyLower name = firstMatch name keywordTable := by
  simp [classifyLower, firstMatch, keywordTable, List.any_cons, List.any_nil, Bool.or_assoc]

/-- C10: `determineDataType` is a deterministic, case-insensitive substring
classifier agreeing with the ordered keyword table of the spec (population,
economic, labor, industry, education, health, environment, housing, income,
prices; first match wins, otherwise "general"); it never fails on string
input, and any two strings with the same lower-casing classify alike. -/
theorem claim10_determineDataType_classifier (s : String) :
    determineDataType (JSVal.str s) = .ok (classifySpec s) ∧
    (∀ t : String, jsToLower t = jsToLower s →
      determineDataType (JSVal.str t) = determineDataType (JSVal.str s)) := by
  constructor
  · show Except.ok (classifyLower (jsToLower s)) = _
    rw [classifyLower_eq_firstMatch]
    rfl
  · intro t h
    show Except.ok (classifyLower (jsToLower t)) = Except.ok (classifyLower (jsToLower s))
    rw [h]

/-- Witness for C10 at concrete inputs: a name matching the economic
keyword set, and its differently-cased variant classifying identically. -/
theorem claim10_witness :
    determineDataType (JSVal.str "GDP 성장률") = .ok (classifySpec "GDP 성장률") ∧
    determineDataType (JSVal.str "gdp 성장률") = determineDataType (JSVal.str "GDP 성장률") ∧
    classifySpec "GDP 성장률" = "economic" := by
  refine ⟨(claim10_determineDataType_classifier "GDP 성장률").1,
    (claim10_determineDataType_classifier "GDP 성장률").2 "gdp 성장률" (by decide), by decide⟩

theorem validateInput_ok_shape (i : InputObj) (c : Config)
    (h : validateInput i = .ok c) :
    ∃ sk vw pid, jsTrim i.searchKeyword "input.searchKeyword" = .ok sk ∧
      jsTrim i.vwCd "input.vwCd" = .ok vw ∧
      jsTrim i.parentId "input.parentId" = .ok pid ∧
      c = { searchKeyword := strOrDefault sk ""
            vwCd := strOrDefault vw "MT_ZTITLE"
            parentId := strOrDefault pid "A"
            maxItems := computeMaxItems i.maxItems
            includeMetadata := !(i.includeMetadata == JSVal.bool false)
            outputFormat := computeOutputFormat i.outputFormat
            delayBetweenRequests := computeDelay i.delayBetweenRequests } := by
  unfold validateInput at h
  cases h1 : jsTrim i.searchKeyword "input.searchKeyword" with
  | error e => rw [h1] at h; simp [Bind.bind, Except.bind] at h
  | ok sk =>
    rw [h1] at h
    cases h2 : jsTrim i.vwCd "input.vwCd" with
    | error e => rw [h2] at h; simp [Bind.bind, Except.bind] at h
    | ok vw =>
      rw [h2] at h
      cases h3 : jsTrim i.parentId "input.parentId" with
      | error e => rw [h3] at h; simp [Bind.bind, Except.bind] at h
      | ok pid =>
        rw [h3] at h
        simp only [Bind.bind, Except.bind, Except.ok.injEq] at h
        exact ⟨sk, vw, pid, rfl, rfl, rfl, h.symm⟩

theorem computeMaxItems_bounds (v : JSVal) :
    1 ≤ computeMaxItems v ∧ computeMaxItems v ≤ 100 := by
  unfold computeMaxItems
  constructor
  · exact le_min (le_max_right _ _) (by norm_num)
  · exact min_le_right _ _

/-- C7: the `maxItems` computation of `validateInput` always lands in
`[1, 100]`; every successful validation carries exactly that value; an
input parsing above 100 yields 100, one parsing below 1 yields 1, and an
absent, zero, or unparseable `maxItems` yields the default 10. -/
theorem claim7_maxItems_clamped :
    (∀ v : JSVal, 1 ≤ computeMaxItems v ∧ computeMaxItems v ≤ 100) ∧
    (∀ (i : InputObj) (c : Config), validateInput i = .ok c →
      c.maxItems = computeMaxItems i.maxItems) ∧
    computeMaxItems (.str "200") = 100 ∧
    computeMaxItems (.str "-5") = 1 ∧
    computeMaxItems .undef = 10 ∧
    computeMaxItems (.num 0) = 10 ∧
    computeMaxItems (.str "0") = 10 ∧
    computeMaxItems (.str "abc") = 10 := by
  refine ⟨computeMaxItems_bounds, ?_, by decide, by decide, by decide, by decide, by decide, by decide⟩
  intro i c h
  obtain ⟨sk, vw, pid, _, _, _, rfl⟩ := validateInput_ok_shape i c h
  rfl

/-- Witness for C7 at a concrete input: `maxItems = "200"` clamps to 100
through a full `validateInput` run. -/
theorem claim7_witness :
    ∃ c : Config,
      validateInput ⟨.undef, .undef, .undef, .str "200", .undef, .undef, .undef⟩ = .ok c ∧
      c.maxItems = computeMaxItems (.str "200") ∧
      1 ≤ computeMaxItems (.str "200") ∧ computeMaxItems (.str "200") ≤ 100 := by
  refine ⟨{ searchKeyword := "", vwCd := "MT_ZTITLE", parentId := "A", maxItems := 100,
            includeMetadata := true, outputFormat := "structured", delayBetweenRequests := 1000 },
    rfl, ?_, (claim7_maxItems_clamped.1 (.str "200")).1, (claim7_maxItems_clamped.1 (.str "200")).2⟩
  exact claim7_maxItems_clamped.2.1
    ⟨.undef, .undef, .undef, .str "200", .undef, .undef, .undef⟩
    { searchKeyword := "", vwCd := "MT_ZTITLE", parentId := "A", maxItems := 100,
      includeMetadata := true, outputFormat := "structured", delayBetweenRequests := 1000 } rfl

/-- C3 as stated is false: a numeric `searchKeyword` reaches
`input.searchKeyword?.trim()` with a number, and optional chaining does
not guard the method call, so `validateInput` throws a `TypeError`
instead of returning a Configuration. -/
theorem claim3_counterexample :
    validateInput ⟨.num 5, .undef, .undef, .undef, .undef, .undef, .undef⟩
      = .error "input.searchKeyword.trim is not a function" := rfl

theorem computeOutputFormat_cases (v : JSVal) :
    computeOutputFormat v = "structured" ∨ computeOutputFormat v = "raw" ∨
      computeOutputFormat v = "both" := by
  cases v with
  | str s =>
    simp only [computeOutputFormat]
    by_cases h : s = "structured" ∨ s = "raw" ∨ s = "both"
    · rw [if_pos h]; exact h
    · rw [if_neg h]; exact Or.inl rfl
  | undef => exact Or.inl rfl
  | null => exact Or.inl rfl
  | num q => exact Or.inl rfl
  | bool b => exact Or.inl rfl

theorem jsTrim_stringable (v : JSVal) (label : String) (h : stringable v) :
    ∃ w, jsTrim v label = .ok w := by
  rcases h with rfl | rfl | ⟨s, rfl⟩
  · exact ⟨.undef, rfl⟩
  · exact ⟨.undef, rfl⟩
  · exact ⟨.str s.trim, rfl⟩

/-- C3 amended: for every input object whose `searchKeyword`, `vwCd` and
`parentId` are each absent, `null` or strings (the fields the source
optional-chains into `.trim()`), `validateInput` returns a fully populated
Configuration with `maxItems` in `[1, 100]`, `delayBetweenRequests` at
least 500 and `outputFormat` one of structured/raw/both, and does not
throw; a non-null, non-string value in one of those three fields (such as
the numeric `searchKeyword` of the counterexample) instead raises a
`TypeError`. -/
theorem claim3_validateInput_total_on_stringlike (i : InputObj)
    (h1 : stringable i.searchKeyword) (h2 : stringable i.vwCd)
    (h3 : stringable i.parentId) :
    ∃ c : Config, validateInput i = .ok c ∧
      1 ≤ c.maxItems ∧ c.maxItems ≤ 100 ∧
      500 ≤ c.delayBetweenRequests ∧
      (c.outputFormat = "structured" ∨ c.outputFormat = "raw" ∨ c.outputFormat = "both") := by
  obtain ⟨sk, hsk⟩ := jsTrim_stringable _ "input.searchKeyword" h1
  obtain ⟨vw, hvw⟩ := jsTrim_stringable _ "input.vwCd" h2
  obtain ⟨pid, hpid⟩ := jsTrim_stringable _ "input.parentId" h3
  refine ⟨{ searchKeyword := strOrDefault sk ""
            vwCd := strOrDefault vw "MT_ZTITLE"
            parentId := strOrDefault pid "A"
            maxItems := computeMaxItems i.maxItems
            includeMetadata := !(i.includeMetadata == JSVal.bool false)
            outputFormat := computeOutputFormat i.outputFormat
            delayBetweenRequests := computeDelay i.delayBetweenRequests }, ?_, ?_, ?_, ?_, ?_⟩
  · unfold validateInput
    rw [hsk, hvw, hpid]
    rfl
  · exact (computeMaxItems_bounds i.maxItems).1
  · exact (computeMaxItems_bounds i.maxItems).2
  · exact le_max_right _ _
  · exact computeOutputFormat_cases i.outputFormat

/-- Witness for the amended C3 at a concrete input with a malformed (but
string-typed or absent) shape: a padded keyword, a null `vwCd`, and junk
in every bounded field. -/
theorem claim3_witness :
    ∃ c : Config,
      validateInput ⟨.str "  테스트  ", .null, .undef, .str "-3", .bool true, .str "nope", .num 7⟩
        = .ok c ∧
      1 ≤ c.maxItems ∧ c.maxItems ≤ 100 ∧ 500 ≤ c.delayBetweenRequests ∧
      (c.outputFormat = "structured" ∨ c.outputFormat = "raw" ∨ c.outputFormat = "both") := by
  obtain ⟨c, h⟩ := claim3_validateInput_total_on_stringlike
    ⟨.str "  테스트  ", .null, .undef, .str "-3", .bool true, .str "nope", .num 7⟩
    (Or.inr (Or.inr ⟨"  테스트  ", rfl⟩)) (Or.inr (Or.inl rfl)) (Or.inl rfl)
  exact ⟨c, h⟩

/-- C1 as stated is false: when the second row of a batch throws (a `null`
row), the records already pushed for earlier rows are kept and the sentinel
is appended after them, so the output is not exactly one sentinel record —
the partially normalized output is not discarded. -/
theorem claim1_counterexample :
    ((normalizeStatisticalData
        (.arr [.obj ⟨.str "인구 census", .num 3, .undef, .undef, .undef, .undef, .undef, .undef, .undef⟩,
               .jsnull])
        none (.str "T1") "NOW").map (fun r => r.dataType) = ["population", "error"]) ∧
    (normalizeStatisticalData
        (.arr [.obj ⟨.str "인구 census", .num 3, .undef, .undef, .undef, .undef, .undef, .undef, .undef⟩,
               .jsnull])
        none (.str "T1") "NOW").length = 2 := by
  constructor <;> rfl

/-- C1 amended: on an exception during the batch, `normalizeStatisticalData`
stops at the offending row, keeps every record normalized before it, and
appends exactly one sentinel record whose `dataType` is "error" and whose
`metadata` carries the exception message and the (array-coerced) raw
payload; the exception is never propagated (the function is total), and
when the exception strikes before any row was normalized the output is
exactly the one sentinel record. -/
theorem claim1_normalizer_batch_failure (rawData : RawBatch) (md : Option MetaInfo)
    (tid : JSVal) (now : String) (recs : List NormalizedRecord) (msg : String)
    (h : normalizeRows tid now (coerceBatch rawData) = (recs, some msg)) :
    normalizeStatisticalData rawData md tid now
      = recs ++ [errorSentinel msg (coerceBatch rawData) tid now] ∧
    (errorSentinel msg (coerceBatch rawData) tid now).dataType = "error" ∧
    (errorSentinel msg (coerceBatch rawData) tid now).metadata
      = .errorInfo msg (coerceBatch rawData) ∧
    (recs = [] → normalizeStatisticalData rawData md tid now
      = [errorSentinel msg (coerceBatch rawData) tid now]) := by
  have hmain : normalizeStatisticalData rawData md tid now
      = recs ++ [errorSentinel msg (coerceBatch rawData) tid now] := by
    unfold normalizeStatisticalData
    simp only [h]
  refine ⟨hmain, rfl, rfl, ?_⟩
  intro hrecs
  rw [hmain, hrecs, List.nil_append]

/-- Witness for the amended C1: a batch whose first row already throws
yields exactly the sentinel record. -/
theorem claim1_witness :
    normalizeStatisticalData (RawBatch.arr [RawRow.jsnull]) none (.str "T1") "NOW"
      = [errorSentinel "Cannot read properties of null (reading TBL_NM)"
          [RawRow.jsnull] (.str "T1") "NOW"] := by
  exact (claim1_normalizer_batch_failure (RawBatch.arr [RawRow.jsnull]) none (.str "T1") "NOW"
    [] "Cannot read properties of null (reading TBL_NM)" rfl).2.2.2 rfl

/-- An input object with every key absent. -/
def inputEmpty : InputObj :=
  ⟨.undef, .undef, .undef, .undef, .undef, .undef, .undef⟩

/-- The configuration `validateInput` produces from `inputEmpty`. -/
def cfgDefault : Config :=
  { searchKeyword := ""
    vwCd := "MT_ZTITLE"
    parentId := "A"
    maxItems := 10
    includeMetadata := true
    outputFormat := "structured"
    delayBetweenRequests := 1000 }

/-- A concrete table descriptor for witnesses. -/
def tableW : TableDesc :=
  ⟨.str "DT_1IN1502", .undef, .str "인구총조사", .undef, .str "101"⟩

/-- C9: with no credential the orchestrator goes straight to demo mode —
the Table Lister is never called, the demo records are emitted, and the
run ends with a `demo_summary` record carrying the registration info. -/
theorem claim9_no_credential_demo (env : Env) (cfg : Config)
    (h1 : validateInput env.input = .ok cfg)
    (h2 : apiKeyTruthy env.apiKey = false) :
    mainLogic env = .ok (runDemoMode cfg env.now) ∧
    (∀ e ∈ eventsOf (mainLogic env), isCallList e = false) ∧
    Event.push (.demoSummary demoSummaryMsg (demoSelection cfg env.now).length cfg
      kosisRegInfo env.now) ∈ eventsOf (mainLogic env) := by
  have hm : mainLogic env = .ok (runDemoMode cfg env.now) := by
    unfold mainLogic
    rw [h1]
    simp [h2]
  refine ⟨hm, ?_, ?_⟩
  · intro e he
    rw [hm] at he
    exact runDemoMode_no_callList cfg env.now e he
  · rw [hm]
    exact runDemoMode_demoSummary_mem cfg env.now

/-- A concrete credential-less environment. -/
def envNoKeyW : Env :=
  { apiKey := none, input := inputEmpty, listResult := .ok [],
    fetch := fun _ => .ok [], now := "NOW" }

/-- Witness for C9: a concrete credential-less environment. -/
theorem claim9_witness :
    mainLogic envNoKeyW = .ok (runDemoMode cfgDefault "NOW") ∧
    Event.push (.demoSummary demoSummaryMsg (demoSelection cfgDefault "NOW").length cfgDefault
      kosisRegInfo "NOW") ∈ eventsOf (mainLogic envNoKeyW) := by
  have h := claim9_no_credential_demo envNoKeyW cfgDefault rfl rfl
  exact ⟨h.1, h.2.2⟩

theorem getStatsList_error_contains_API (o : ListOutcome) (m : String)
    (h : getStatsList o = .error m) : strContains m "API" = true := by
  cases o with
  | arrayData ts => simp [getStatsList] at h
  | arrayLikeData ts => simp [getStatsList] at h
  | invalidData =>
    unfold getStatsList handleApiError at h
    injection h with h'
    subst h'
    decide
  | httpError st dm de =>
    unfold getStatsList handleApiError at h
    injection h with h'
    subst h'
    apply strContains_append_left
    apply strContains_append_left
    apply strContains_append_left
    decide
  | noResponse =>
    unfold getStatsList handleApiError at h
    injection h with h'
    subst h'
    decide
  | setupError msg =>
    unfold getStatsList handleApiError at h
    injection h with h'
    subst h'
    apply strContains_append_left
    decide

/-- C4: every error raised by `getStatsList` (HTTP error response, no
response, request setup failure, and the invalid-format case) carries
"API" in its message, so in the orchestrator's top-level catch every
listing-phase error from `getStatsList` takes the authentication-fallback
branch to demo mode, and the branch emitting a top-level "error" record is
unreachable for such errors. -/
theorem claim4_getStatsList_errors_reach_auth_fallback :
    (∀ (o : ListOutcome) (m : String), getStatsList o = .error m →
      strContains m "API" = true) ∧
    (∀ (env : Env) (o : ListOutcome) (m : String) (cfg : Config),
      validateInput env.input = .ok cfg → apiKeyTruthy env.apiKey = true →
      env.listResult = getStatsList o → getStatsList o = .error m →
      mainLogic env = .ok (Event.callList :: runDemoMode cfg env.now) ∧
      ∀ e ∈ eventsOf (mainLogic env), isTopError e = false) := by
  refine ⟨getStatsList_error_contains_API, ?_⟩
  intro env o m cfg h1 h2 h3 h4
  have hapi : strContains m "API" = true := getStatsList_error_contains_API o m h4
  rw [h4] at h3
  have hm : mainLogic env = .ok (Event.callList :: runDemoMode cfg env.now) := by
    unfold mainLogic
    rw [h1]
    simp [h2, h3, hapi]
  refine ⟨hm, ?_⟩
  intro e he
  rw [hm] at he
  simp only [eventsOf, List.mem_cons] at he
  rcases he with rfl | he
  · rfl
  · exact runDemoMode_no_topError cfg env.now e he

/-- A concrete credentialed environment whose listing call failed with the
no-response axios outcome. -/
def envNoRespW : Env :=
  { apiKey := some "k", input := inputEmpty, listResult := getStatsList .noResponse,
    fetch := fun _ => .ok [], now := "NOW" }

/-- Witness for C4: the no-response outcome of `getStatsList` in a
credentialed run. -/
theorem claim4_witness :
    strContains "KOSIS API Error (getStatsList): No response received from server." "API" = true ∧
    mainLogic envNoRespW = .ok (Event.callList :: runDemoMode cfgDefault "NOW") := by
  refine ⟨claim4_getStatsList_errors_reach_auth_fallback.1 .noResponse _ rfl, ?_⟩
  exact (claim4_getStatsList_errors_reach_auth_fallback.2 envNoRespW .noResponse
    "KOSIS API Error (getStatsList): No response received from server." cfgDefault
    rfl rfl rfl rfl).1

/-- C6: a credentialed run whose listing phase fails with a message
containing "401", "403" or "API" falls back to demo mode (demo summary
emitted, no top-level error record); any other top-level failure first
emits one "error" record carrying the message and the validated
Configuration and then still runs the demo fallback. -/
theorem claim6_listing_failure_fallback (env : Env) (cfg : Config) (m : String)
    (h1 : validateInput env.input = .ok cfg)
    (h2 : apiKeyTruthy env.apiKey = true)
    (h3 : env.listResult = .error m) :
    ((strContains m "401" = true ∨ strContains m "403" = true ∨ strContains m "API" = true) →
      mainLogic env = .ok (Event.callList :: runDemoMode cfg env.now) ∧
      (∀ e ∈ eventsOf (mainLogic env), isTopError e = false) ∧
      (eventsOf (mainLogic env)).any isDemoSummary = true) ∧
    ((strContains m "401" = false ∧ strContains m "403" = false ∧ strContains m "API" = false) →
      mainLogic env = .ok (Event.callList ::
        Event.push (.topError m topErrorMsg cfg env.now) :: runDemoMode cfg env.now) ∧
      (eventsOf (mainLogic env)).any isDemoSummary = true) := by
  constructor
  · intro h
    have hm : mainLogic env = .ok (Event.callList :: runDemoMode cfg env.now) := by
      unfold mainLogic
      rw [h1]
      rcases h with h | h | h <;> simp [h2, h3, h]
    refine ⟨hm, ?_, ?_⟩
    · intro e he
      rw [hm] at he
      simp only [eventsOf, List.mem_cons] at he
      rcases he with rfl | he
      · rfl
      · exact runDemoMode_no_topError cfg env.now e he
    · rw [hm]
      simp only [eventsOf, List.any_cons]
      rw [runDemoMode_has_demoSummary]
      rfl
  · intro h
    have hm : mainLogic env = .ok (Event.callList ::
        Event.push (.topError m topErrorMsg cfg env.now) :: runDemoMode cfg env.now) := by
      unfold mainLogic
      rw [h1]
      simp [h2, h3, h.1, h.2.1, h.2.2]
    refine ⟨hm, ?_⟩
    rw [hm]
    simp only [eventsOf, List.any_cons]
    rw [runDemoMode_has_demoSummary]
    rfl

/-- Witness for C6: both branches at concrete environments — a "401"
listing failure falling straight back to demo mode, and a transport-level
failure that first emits the top-level error record. -/
def env401W : Env :=
  { apiKey := some "k", input := inputEmpty, listResult := .error "Status 401 - Unauthorized",
    fetch := fun _ => .ok [], now := "NOW" }

def envConnRefusedW : Env :=
  { apiKey := some "k", input := inputEmpty, listResult := .error "ECONNREFUSED",
    fetch := fun _ => .ok [], now := "NOW" }

theorem claim6_witness :
    mainLogic env401W = .ok (Event.callList :: runDemoMode cfgDefault "NOW") ∧
    mainLogic envConnRefusedW
      = .ok (Event.callList ::
          Event.push (.topError "ECONNREFUSED" topErrorMsg cfgDefault "NOW") ::
          runDemoMode cfgDefault "NOW") := by
  constructor
  · exact ((claim6_listing_failure_fallback env401W cfgDefault "Status 401 - Unauthorized"
      rfl rfl rfl).1 (Or.inl (by decide))).1
  · exact ((claim6_listing_failure_fallback envConnRefusedW cfgDefault "ECONNREFUSED"
      rfl rfl rfl).2 ⟨by decide, by decide, by decide⟩).1

/-- Modelled from the spec (section 4.8): case-insensitive substring match
of the keyword against name, primary category and data type of a sample
record. -/
def specDemoMatch (kw : String) (r : NormalizedRecord) : Bool :=
  strContains (jsLowerString r.statName) (jsToLower kw) ||
  strContains (jsLowerString r.category1) (jsToLower kw) ||
  strContains (jsToLower r.dataType) (jsToLower kw)

/-- Modelled from the spec (section 4.8): keep every sample record when no
keyword was supplied, otherwise the matching ones, and truncate to
`maxItems`. -/
def demoSelectSpec (cfg : Config) (now : String) : List NormalizedRecord :=
  (if cfg.searchKeyword = "" then demoPool now
   else (demoPool now).filter (specDemoMatch cfg.searchKeyword)).take cfg.maxItems.toNat

/-- C8: the demo fallback emits exactly the sample-pool records matching
the keyword (all of them when the keyword is empty), in pool order,
truncated to `maxItems`, followed by exactly one `demo_summary` record
whose `demoDataPoints` equals the number of emitted sample records and
which carries the Configuration and the registration guidance. -/
theorem claim8_demo_selection (cfg : Config) (now : String) :
    runDemoMode cfg now
      = (demoSelectSpec cfg now).map (fun r => Event.push (.dataPoint r))
        ++ [Event.push (.demoSummary demoSummaryMsg (demoSelectSpec cfg now).length cfg
            kosisRegInfo now)] := by
  have hsel : demoSelection cfg now = demoSelectSpec cfg now := by
    unfold demoSelection demoSelectSpec
    by_cases h : cfg.searchKeyword = ""
    · rw [if_neg (by simp [h]), if_pos h]
    · rw [if_pos (by simp [h]), if_neg h]
      rfl
  unfold runDemoMode
  rw [hsel]

theorem processTable_error_events (cfg : Config) (now : String) (idx : Nat)
    (t : TableDesc) (msg : String) :
    (processTable cfg now idx t (.error msg)).1
      = [Event.push (.tableError (resolveTableId t (idx + 1)) (resolveTableTitle t) msg now)] :=
  rfl

theorem processTable_ok_sleep (cfg : Config) (now : String) (idx : Nat)
    (t : TableDesc) (rows : List RawRow) :
    countSleeps (processTable cfg now idx t (.ok rows)).1 = 1 ∧
    Event.sleeps cfg.delayBetweenRequests ∈ (processTable cfg now idx t (.ok rows)).1 := by
  constructor
  · by_cases hr : cfg.outputFormat = "raw" ∨ cfg.outputFormat = "both" <;>
      simp [processTable, countSleeps, hr, List.countP_append, List.countP_map,
        List.countP_cons, isSleep, Function.comp, List.countP_eq_zero]
  · by_cases hr : cfg.outputFormat = "raw" ∨ cfg.outputFormat = "both" <;>
      simp [processTable, hr]

theorem countSleeps_loop (cfg : Config) (now : String)
    (fetch : Nat → Except String (List RawRow)) (l : List (Nat × TableDesc)) :
    countSleeps ((l.map fun p => (processTable cfg now p.1 p.2 (fetch p.1)).1).flatten)
      = l.countP (fun p => fetchOk (fetch p.1)) := by
  induction l with
  | nil => rfl
  | cons a rest ih =>
    simp only [List.map_cons, List.flatten_cons, countSleeps, List.countP_append,
      List.countP_cons] at *
    cases hf : fetch a.1 with
    | ok rows =>
      rw [hf] at *
      have h1 := (processTable_ok_sleep cfg now a.1 a.2 rows).1
      unfold countSleeps at h1
      rw [h1, ih]
      simp [fetchOk]
      omega
    | error msg =>
      rw [hf] at *
      rw [processTable_error_events]
      simp only [List.countP_cons, List.countP_nil, isSleep]
      rw [ih]
      simp [fetchOk]

theorem countSleeps_liveEvents (cfg : Config) (now : String)
    (fetch : Nat → Except String (List RawRow)) (ts : List TableDesc) :
    countSleeps (liveEvents cfg now fetch ts)
      = (ts.take cfg.maxItems.toNat).enum.countP (fun p => fetchOk (fetch p.1)) := by
  unfold liveEvents
  simp only [List.map_map, Function.comp_def]
  unfold countSleeps
  rw [List.countP_append, List.countP_append]
  have h1 := countSleeps_loop cfg now fetch (ts.take cfg.maxItems.toNat).enum
  unfold countSleeps at h1
  rw [h1]
  have h2 : ∀ n : Nat, List.countP isSleep (if 0 < n then [Event.chart n] else []) = 0 := by
    intro n
    by_cases h : 0 < n <;> simp [h, isSleep]
  rw [h2]
  simp [isSleep]

/-- C2 as stated is false: with one table whose processing succeeds, the
claim demands no delay at all (no delay after the last table), but the
source performs the delay after the successful last table, so exactly one
`sleep` is observed. -/
theorem claim2_counterexample :
    countSleeps (eventsOf (mainLogic
      { apiKey := some "k", input := inputEmpty, listResult := .ok [tableW],
        fetch := fun _ => .ok [], now := "NOW" })) = 1 := by
  decide

/-- C2 amended: the inter-table delay of `delayBetweenRequests` is
performed exactly after each successfully processed table, including the
last one; it is not performed after a table whose processing failed; and
no delay occurs in demo mode or on an empty table list (the live run's
total sleep count equals its number of successful table iterations). -/
theorem claim2_delay_after_success_only :
    (∀ (cfg : Config) (now : String) (idx : Nat) (t : TableDesc) (msg : String),
      countSleeps (processTable cfg now idx t (.error msg)).1 = 0) ∧
    (∀ (cfg : Config) (now : String) (idx : Nat) (t : TableDesc) (rows : List RawRow),
      countSleeps (processTable cfg now idx t (.ok rows)).1 = 1 ∧
      Event.sleeps cfg.delayBetweenRequests ∈ (processTable cfg now idx t (.ok rows)).1) ∧
    (∀ (cfg : Config) (now : String), countSleeps (runDemoMode cfg now) = 0) ∧
    (∀ (env : Env) (cfg : Config) (ts : List TableDesc),
      validateInput env.input = .ok cfg → apiKeyTruthy env.apiKey = true →
      env.listResult = .ok ts →
      countSleeps (eventsOf (mainLogic env))
        = (ts.take cfg.maxItems.toNat).enum.countP (fun p => fetchOk (env.fetch p.1))) := by
  refine ⟨?_, processTable_ok_sleep, runDemoMode_no_sleep, ?_⟩
  · intro cfg now idx t msg
    rw [processTable_error_events]
    rfl
  · intro env cfg ts h1 h2 h3
    have hm : mainLogic env = .ok (Event.callList ::
        (if ts.length = 0 then
          [Event.push (.noData noDataMsg (buildSearchParams cfg) env.now)]
         else liveEvents cfg env.now env.fetch ts)) := by
      unfold mainLogic
      rw [h1]
      simp [h2, h3]
    rw [hm]
    by_cases hlen : ts.length = 0
    · have hts : ts = [] := List.length_eq_zero.mp hlen
      subst hts
      simp [eventsOf, countSleeps, isSleep]
    · rw [if_neg hlen]
      simp only [eventsOf, countSleeps, List.countP_cons, isSleep]
      have := countSleeps_liveEvents cfg env.now env.fetch ts
      unfold countSleeps at this
      rw [this]
      simp

/-- Witness for the amended C2: a one-table environment where the run
sleeps once, a failing iteration sleeping zero times, and the demo path
sleeping zero times. -/
theorem claim2_witness :
    countSleeps (eventsOf (mainLogic
      { apiKey := some "k", input := inputEmpty, listResult := .ok [tableW],
        fetch := fun _ => .ok [], now := "NOW" }))
      = (([tableW].take cfgDefault.maxItems.toNat).enum.countP
          (fun p => fetchOk ((fun _ => Except.ok ([] : List RawRow)) p.1))) ∧
    countSleeps (processTable cfgDefault "NOW" 0 tableW (.error "fetch boom")).1 = 0 ∧
    countSleeps (runDemoMode cfgDefault "NOW") = 0 := by
  refine ⟨?_, claim2_delay_after_success_only.1 cfgDefault "NOW" 0 tableW "fetch boom",
    claim2_delay_after_success_only.2.2.1 cfgDefault "NOW"⟩
  exact claim2_delay_after_success_only.2.2.2
    { apiKey := some "k", input := inputEmpty, listResult := .ok [tableW],
      fetch := fun _ => .ok [], now := "NOW" } cfgDefault [tableW] rfl rfl rfl

/-- A second concrete table descriptor resolved through its fallback
fields. -/
def tableW2 : TableDesc :=
  ⟨.undef, .str "L2", .undef, .str "실업률 통계", .str "101"⟩

/-- A two-table environment whose first fetch fails and second succeeds. -/
def env2W : Env :=
  { apiKey := some "k", input := inputEmpty, listResult := .ok [tableW, tableW2],
    fetch := fun i => if i = 0 then .error "fetch boom" else .ok [], now := "NOW" }

/-- C5: a per-table failure produces exactly one `type: error` record
carrying the resolved table id, title and the error message, and the run
is structurally per-table: the live phase is the concatenation of each
processed table's own event chunk (each depending only on that table's
fetch outcome), followed by a tail that ends with the summary record — so
no per-table failure aborts the run or disturbs later tables. -/
theorem claim5_per_table_isolation :
    (∀ (cfg : Config) (now : String) (idx : Nat) (t : TableDesc) (msg : String),
      (processTable cfg now idx t (.error msg)).1
        = [Event.push (.tableError (resolveTableId t (idx + 1)) (resolveTableTitle t) msg now)]) ∧
    (∀ (env : Env) (cfg : Config) (ts : List TableDesc),
      validateInput env.input = .ok cfg → apiKeyTruthy env.apiKey = true →
      env.listResult = .ok ts → ts ≠ [] →
      mainLogic env = .ok (Event.callList :: liveEvents cfg env.now env.fetch ts) ∧
      ∃ tail, liveEvents cfg env.now env.fetch ts
          = ((ts.take cfg.maxItems.toNat).enum.map
              (fun p => (processTable cfg env.now p.1 p.2 (env.fetch p.1)).1)).flatten ++ tail ∧
        ∃ n, tail.getLast?
          = some (Event.push (.summary (ts.take cfg.maxItems.toNat).length n cfg env.now))) := by
  refine ⟨processTable_error_events, ?_⟩
  intro env cfg ts h1 h2 h3 h4
  have hlen : ¬ ts.length = 0 := by
    intro h
    exact h4 (List.length_eq_zero.mp h)
  have hm : mainLogic env = .ok (Event.callList :: liveEvents cfg env.now env.fetch ts) := by
    unfold mainLogic
    rw [h1]
    simp [h2, h3, hlen]
  have hEq : liveEvents cfg env.now env.fetch ts
      = ((ts.take cfg.maxItems.toNat).enum.map
          (fun p => (processTable cfg env.now p.1 p.2 (env.fetch p.1)).1)).flatten
        ++ ((if 0 < ((ts.take cfg.maxItems.toNat).enum.map
              (fun p => (processTable cfg env.now p.1 p.2 (env.fetch p.1)).2)).sum then
            [Event.chart (((ts.take cfg.maxItems.toNat).enum.map
              (fun p => (processTable cfg env.now p.1 p.2 (env.fetch p.1)).2)).sum)]
          else [])
          ++ [Event.push (.summary (ts.take cfg.maxItems.toNat).length
              (((ts.take cfg.maxItems.toNat).enum.map
                (fun p => (processTable cfg env.now p.1 p.2 (env.fetch p.1)).2)).sum)
              cfg env.now)]) := by
    simp only [liveEvents, List.map_map, Function.comp_def, List.append_assoc]
  exact ⟨hm, _, hEq, _, List.getLast?_concat _⟩

/-- Witness for C5: the two-table environment — the failing first table's
chunk is exactly one error record, and the run still decomposes per table
with the summary at the end. -/
theorem claim5_witness :
    (processTable cfgDefault "NOW" 0 tableW (.error "fetch boom")).1
      = [Event.push (.tableError (resolveTableId tableW 1) (resolveTableTitle tableW)
          "fetch boom" "NOW")] ∧
    mainLogic env2W = .ok (Event.callList :: liveEvents cfgDefault "NOW" env2W.fetch
      [tableW, tableW2]) := by
  refine ⟨claim5_per_table_isolation.1 cfgDefault "NOW" 0 tableW "fetch boom", ?_⟩
  exact (claim5_per_table_isolation.2 env2W cfgDefault [tableW, tableW2]
    rfl rfl rfl (by simp)).1

end KStat
